import Mathlib

/-!
Shallow embedding of `src/main.rs` of the rust-telemetry-driver repository.

The stream drain `capture_stream_lines` is modelled over byte lists
(`List Nat`, one `Nat` per byte); the driver `main` is modelled as a pure
function from an environment record (arguments, session id, timestamps,
spawn outcome, telemetry write outcomes) to a record of the observable
effects of the run (exit code, telemetry events attempted and appended,
bytes written to the standard streams of the wrapper).
-/

namespace Telemetry

/-- Bytes of a stream are modelled as natural numbers. -/
abbrev Byte := Nat

/-- The line feed byte, 0x0A. -/
def LF : Byte := 10

/-- The carriage return byte, 0x0D. -/
def CR : Byte := 13

/-- Models the byte consumption of `BufRead::read_until` with delimiter
`LF`, which underlies `read_line`: consume bytes up to and including the
first `LF`, or the whole remaining stream when no `LF` occurs before end
of stream.  Returns the bytes consumed and the rest of the stream. -/
def read_until_lf : List Byte → List Byte × List Byte
  | [] => ([], [])
  | b :: rest =>
    if b = LF then ([b], rest)
    else (b :: (read_until_lf rest).1, (read_until_lf rest).2)

/-- Byte is a UTF-8 continuation byte (0x80 to 0xBF). -/
def utf8Cont (b : Byte) : Bool := decide (0x80 ≤ b) && decide (b ≤ 0xBF)

/-- UTF-8 validity of a byte sequence, following the RFC 3629 table that
the Rust standard library str::from_utf8 implements: ASCII bytes stand
alone; leads 0xC2-0xDF take one continuation; leads 0xE0, 0xE1-0xEC,
0xED, 0xEE-0xEF take two continuations with the usual restricted first
ranges excluding overlong forms and surrogates; leads 0xF0, 0xF1-0xF3,
0xF4 take three continuations with the restricted first ranges keeping
code points inside 0x10FFFF; everything else is invalid. -/
def utf8Valid : List Byte → Bool
  | [] => true
  | b :: rest =>
    if b ≤ 0x7F then utf8Valid rest
    else if decide (0xC2 ≤ b) && decide (b ≤ 0xDF) then
      match rest with
      | b1 :: r => utf8Cont b1 && utf8Valid r
      | [] => false
    else if b == 0xE0 then
      match rest with
      | b1 :: b2 :: r =>
        (decide (0xA0 ≤ b1) && decide (b1 ≤ 0xBF)) && utf8Cont b2 &&
          utf8Valid r
      | _ => false
    else if (decide (0xE1 ≤ b) && decide (b ≤ 0xEC)) || b == 0xEE ||
        b == 0xEF then
      match rest with
      | b1 :: b2 :: r => utf8Cont b1 && utf8Cont b2 && utf8Valid r
      | _ => false
    else if b == 0xED then
      match rest with
      | b1 :: b2 :: r =>
        (decide (0x80 ≤ b1) && decide (b1 ≤ 0x9F)) && utf8Cont b2 &&
          utf8Valid r
      | _ => false
    else if b == 0xF0 then
      match rest with
      | b1 :: b2 :: b3 :: r =>
        (decide (0x90 ≤ b1) && decide (b1 ≤ 0xBF)) && utf8Cont b2 &&
          utf8Cont b3 && utf8Valid r
      | _ => false
    else if decide (0xF1 ≤ b) && decide (b ≤ 0xF3) then
      match rest with
      | b1 :: b2 :: b3 :: r =>
        utf8Cont b1 && utf8Cont b2 && utf8Cont b3 && utf8Valid r
      | _ => false
    else if b == 0xF4 then
      match rest with
      | b1 :: b2 :: b3 :: r =>
        (decide (0x80 ≤ b1) && decide (b1 ≤ 0x8F)) && utf8Cont b2 &&
          utf8Cont b3 && utf8Valid r
      | _ => false
    else false

/-- Models one `reader.read_line(&mut line)` call of `BufRead`: read
bytes through the first `LF` (or to end of stream) with read_until, then
check that the bytes read are valid UTF-8.  On valid bytes the call
returns Ok with the bytes appended to the line (modelled some chunk; the
returned count is the chunk length, and a chunk of length zero signals
end of stream); on invalid bytes it returns an error (modelled none).
Either way the bytes have been consumed from the stream. -/
def read_line (s : List Byte) : Option (List Byte) × List Byte :=
  if utf8Valid (read_until_lf s).1 then
    (some (read_until_lf s).1, (read_until_lf s).2)
  else (none, (read_until_lf s).2)

theorem read_until_lf_append (s : List Byte) :
    (read_until_lf s).1 ++ (read_until_lf s).2 = s := by
  induction s with
  | nil => rfl
  | cons b rest ih =>
    by_cases hb : b = LF
    · simp [read_until_lf, hb]
    · simp only [read_until_lf, if_neg hb, List.cons_append, List.cons.injEq,
        true_and]
      exact ih

theorem read_until_lf_fst_ne_nil (s : List Byte) (h : s ≠ []) :
    (read_until_lf s).1 ≠ [] := by
  match s with
  | b :: rest =>
    by_cases hb : b = LF
    · simp [read_until_lf, hb]
    · simp [read_until_lf, hb]

theorem read_until_lf_snd_length_lt (s : List Byte) (h : s ≠ []) :
    (read_until_lf s).2.length < s.length := by
  have happ := read_until_lf_append s
  have hfst := read_until_lf_fst_ne_nil s h
  have : (read_until_lf s).1.length + (read_until_lf s).2.length =
      s.length := by
    rw [← List.length_append, happ]
  have hpos : 0 < (read_until_lf s).1.length := List.length_pos.mpr hfst
  omega

theorem read_line_some (s chunk rest : List Byte)
    (h : read_line s = (some chunk, rest)) :
    chunk = (read_until_lf s).1 ∧ rest = (read_until_lf s).2 := by
  unfold read_line at h
  split at h
  · have h1 := congrArg Prod.fst h
    have h2 := congrArg Prod.snd h
    simp only [Option.some.injEq] at h1
    simp only [] at h2
    exact ⟨h1.symm, h2.symm⟩
  · simp at h

/-- Models lines 63-69 of the source: if the line ends with a line feed,
remove it, and if the remainder then ends with a carriage return, remove
that too (`String.pop` removes the last character). -/
def strip_line_terminator (line : List Byte) : List Byte :=
  if line.getLast? = some LF then
    if line.dropLast.getLast? = some CR then line.dropLast.dropLast
    else line.dropLast
  else line

/-- Models `capture_stream_lines` (source lines 53-77): loop reading one
line at a time, accumulating the terminator-stripped lines and the total
count of raw bytes read.  The three match arms of the source loop are: a
read of zero bytes (end of stream, exactly when the remaining stream is
empty) breaks; a successful read of n bytes strips and stores the line
and adds n to the total; a read error (invalid UTF-8 in the bytes read,
the Err arm at source line 72) breaks, silently discarding that line and
everything after it. -/
def capture_stream_lines (s : List Byte) : List (List Byte) × Nat :=
  if h : s = [] then ([], 0)
  else
    match hm : read_line s with
    | (none, _) => ([], 0)
    | (some chunk, rest) =>
      (strip_line_terminator chunk :: (capture_stream_lines rest).1,
        chunk.length + (capture_stream_lines rest).2)
termination_by s.length
decreasing_by
  rw [(read_line_some s chunk rest hm).2]
  exact read_until_lf_snd_length_lt s h

theorem capture_stream_lines_nil : capture_stream_lines [] = ([], 0) := by
  rw [capture_stream_lines]
  simp

theorem capture_stream_lines_err (s : List Byte) (h : s ≠ [])
    (hv : utf8Valid (read_until_lf s).1 = false) :
    capture_stream_lines s = ([], 0) := by
  rw [capture_stream_lines, dif_neg h]
  have hrl : read_line s = (none, (read_until_lf s).2) := by
    unfold read_line
    rw [hv]
    simp
  rw [hrl]

theorem capture_stream_lines_ok (s : List Byte) (h : s ≠ [])
    (hv : utf8Valid (read_until_lf s).1 = true) :
    capture_stream_lines s =
      (strip_line_terminator (read_until_lf s).1 ::
          (capture_stream_lines (read_until_lf s).2).1,
        (read_until_lf s).1.length +
          (capture_stream_lines (read_until_lf s).2).2) := by
  rw [capture_stream_lines, dif_neg h]
  have hrl : read_line s =
      (some (read_until_lf s).1, (read_until_lf s).2) := by
    unfold read_line
    rw [hv]
    simp
  rw [hrl]

/-- One line terminator: carriage return + line feed when the flag is
true, bare line feed otherwise. -/
def terminator (crlf : Bool) : List Byte := if crlf then [CR, LF] else [LF]

/-- Builds the byte stream whose lines are the given contents, each
followed by its terminator. -/
def mkStream (ls : List (List Byte × Bool)) : List Byte :=
  (ls.map (fun p => p.1 ++ terminator p.2)).flatten

/-- A canonical line decomposition: the content holds no line feed, a
content followed by a bare line feed does not end in a carriage return
(such a carriage return belongs to a CRLF terminator instead), and the
raw line as read_line reads it, terminator included, is valid UTF-8, so
that the read succeeds. -/
def wellFormedLine (p : List Byte × Bool) : Prop :=
  LF ∉ p.1 ∧ (p.2 = true ∨ p.1.getLast? ≠ some CR) ∧
    utf8Valid (p.1 ++ terminator p.2) = true

instance (p : List Byte × Bool) : Decidable (wellFormedLine p) := by
  unfold wellFormedLine; infer_instance

theorem read_until_lf_no_lf (l : List Byte) (h : LF ∉ l) :
    read_until_lf l = (l, []) := by
  induction l with
  | nil => rfl
  | cons b rest ih =>
    have hb : b ≠ LF := fun hb => h (hb ▸ List.mem_cons_self b rest)
    have hrest : LF ∉ rest := fun hm => h (List.mem_cons_of_mem b hm)
    simp [read_until_lf, hb, ih hrest]

theorem read_until_lf_split (l rest : List Byte) (h : LF ∉ l) :
    read_until_lf (l ++ LF :: rest) = (l ++ [LF], rest) := by
  induction l with
  | nil => simp [read_until_lf, LF]
  | cons b t ih =>
    have hb : b ≠ LF := fun hb => h (hb ▸ List.mem_cons_self b t)
    have ht : LF ∉ t := fun hm => h (List.mem_cons_of_mem b hm)
    simp [read_until_lf, hb, ih ht]

theorem strip_no_lf (l : List Byte) (h : LF ∉ l) :
    strip_line_terminator l = l := by
  have : l.getLast? ≠ some LF := fun hc => h (List.mem_of_getLast?_eq_some hc)
  simp [strip_line_terminator, this]

theorem strip_concat_lf (l : List Byte) (h : l.getLast? ≠ some CR) :
    strip_line_terminator (l ++ [LF]) = l := by
  simp [strip_line_terminator, List.getLast?_concat, List.dropLast_concat, h]

theorem strip_concat_crlf (l : List Byte) :
    strip_line_terminator (l ++ [CR, LF]) = l := by
  have h2 : l ++ [CR, LF] = (l ++ [CR]) ++ [LF] := by simp
  rw [h2]
  simp [strip_line_terminator, List.getLast?_concat, List.dropLast_concat]

/-- Draining a stream made of well formed terminated lines followed by an
arbitrary tail yields those line contents followed by the drain of the
tail, and counts every byte of the prefix. -/
theorem capture_mkStream_prefix (ls : List (List Byte × Bool))
    (tail : List Byte) (h : ∀ p ∈ ls, wellFormedLine p) :
    capture_stream_lines (mkStream ls ++ tail) =
      (ls.map Prod.fst ++ (capture_stream_lines tail).1,
        (mkStream ls).length + (capture_stream_lines tail).2) := by
  induction ls with
  | nil => simp [mkStream]
  | cons p ls ih =>
    obtain ⟨l, c⟩ := p
    obtain ⟨hlf, hcr, hval⟩ := h (l, c) (List.mem_cons_self _ _)
    have hrest : ∀ q ∈ ls, wellFormedLine q :=
      fun q hq => h q (List.mem_cons_of_mem _ hq)
    cases c with
    | false =>
      have hcr' : l.getLast? ≠ some CR := by
        rcases hcr with h' | h'
        · exact absurd h' (by simp)
        · exact h'
      have hval2 : utf8Valid (l ++ [LF]) = true := by
        simpa [terminator] using hval
      have hstream : mkStream ((l, false) :: ls) ++ tail =
          l ++ LF :: (mkStream ls ++ tail) := by
        simp [mkStream, terminator]
      have hr := read_until_lf_split l (mkStream ls ++ tail) hlf
      rw [hstream, capture_stream_lines_ok _ (by simp)
        (by rw [hr]; exact hval2), hr, ih hrest]
      simp [strip_concat_lf l hcr', mkStream, terminator]
      omega
    | true =>
      have hlf' : LF ∉ l ++ [CR] := by
        intro hm
        rcases List.mem_append.mp hm with hm | hm
        · exact hlf hm
        · simp [LF, CR] at hm
      have hval2 : utf8Valid ((l ++ [CR]) ++ [LF]) = true := by
        have he : (l ++ [CR]) ++ [LF] = l ++ [CR, LF] := by simp
        rw [he]
        simpa [terminator] using hval
      have hstream : mkStream ((l, true) :: ls) ++ tail =
          (l ++ [CR]) ++ LF :: (mkStream ls ++ tail) := by
        simp [mkStream, terminator]
      have hr := read_until_lf_split (l ++ [CR]) (mkStream ls ++ tail) hlf'
      rw [hstream, capture_stream_lines_ok _ (by simp)
        (by rw [hr]; exact hval2), hr, ih hrest]
      have hs : (l ++ [CR]) ++ [LF] = l ++ [CR, LF] := by simp
      rw [hs, strip_concat_crlf l]
      simp [mkStream, terminator]
      omega

/-- Counterexample to claim C2 as stated: the stream built from the
single line [255] terminated by a bare line feed is [255, 10]; byte 255
is never valid UTF-8, so read_line returns an error, the loop breaks at
the Err arm (source line 72), and the drain returns no lines and zero
bytes instead of the stripped line [255] with byte total 2 that the
claim requires for every byte stream. -/
theorem capture_invalid_utf8_line :
    capture_stream_lines (mkStream [([255], false)]) = ([], 0) ∧
    capture_stream_lines (mkStream [([255], false)]) ≠ ([[255]], 2) := by
  have hs : mkStream [([255], false)] = [255, 10] := rfl
  have h : capture_stream_lines [255, 10] = ([], 0) :=
    capture_stream_lines_err [255, 10] (by decide) (by decide)
  constructor
  · rw [hs, h]
  · rw [hs, h]
    decide

/-- Claim C2 amended: for a stream whose lines are terminated by bare LF
or by CRLF and are valid UTF-8 (raw line with terminator, as read_line
validates exactly the bytes it reads), capture_stream_lines returns the
line contents with terminators stripped, in order, and a byte total
equal to the length of the whole raw stream, terminator bytes included.
Without the UTF-8 condition the Err arm of the loop stops the drain
early. -/
theorem capture_stream_lines_correct (ls : List (List Byte × Bool))
    (h : ∀ p ∈ ls, wellFormedLine p) :
    capture_stream_lines (mkStream ls) =
      (ls.map Prod.fst, (mkStream ls).length) := by
  have hmain := capture_mkStream_prefix ls [] h
  simpa [capture_stream_lines_nil] using hmain

/-- Witness for C2 on the stream "hi\n" ++ "a\rb\r\n" ++ "\n". -/
theorem capture_stream_lines_correct_witness :
    (∀ p ∈ [([104, 105], false), ([97, 13, 98], true), ([], false)],
      wellFormedLine p) ∧
    capture_stream_lines
        (mkStream [([104, 105], false), ([97, 13, 98], true), ([], false)]) =
      ([[104, 105], [97, 13, 98], []], 9) := by
  refine ⟨by decide, ?_⟩
  rw [capture_stream_lines_correct
    [([104, 105], false), ([97, 13, 98], true), ([], false)] (by decide)]
  rfl

/-- Counterexample to claim C8 as stated: the stream [255] consists of a
single final line with no trailing terminator, but byte 255 is never
valid UTF-8, so read_line returns an error, the loop breaks at the Err
arm (source line 72), and the final line is lost: the drain returns no
lines at all. -/
theorem capture_invalid_utf8_final_line :
    ([255] : List Byte) ≠ [] ∧ LF ∉ ([255] : List Byte) ∧
    capture_stream_lines [255] = ([], 0) ∧
    [255] ∉ (capture_stream_lines [255]).1 := by
  have h : capture_stream_lines [255] = ([], 0) :=
    capture_stream_lines_err [255] (by decide) (by decide)
  refine ⟨by decide, by decide, h, ?_⟩
  rw [h]
  decide

/-- Claim C8 amended: a stream whose final line lacks a trailing
terminator still yields that final line in the returned sequence, with
its bytes counted, provided the final line is valid UTF-8; a final line
that is not valid UTF-8 is discarded by the Err arm of the loop. -/
theorem capture_stream_lines_no_trailing_terminator
    (ls : List (List Byte × Bool)) (l : List Byte)
    (h : ∀ p ∈ ls, wellFormedLine p) (hne : l ≠ []) (hlf : LF ∉ l)
    (hv : utf8Valid l = true) :
    capture_stream_lines (mkStream ls ++ l) =
      (ls.map Prod.fst ++ [l], (mkStream ls).length + l.length) := by
  have hr := read_until_lf_no_lf l hlf
  have base : capture_stream_lines l = ([l], l.length) := by
    rw [capture_stream_lines_ok l hne (by rw [hr]; exact hv), hr]
    simp [capture_stream_lines_nil, strip_no_lf l hlf]
  have hmain := capture_mkStream_prefix ls l h
  rw [hmain, base]

/-- Witness for C8 on the stream "ok\n" ++ "end" (no final terminator). -/
theorem capture_stream_lines_no_trailing_terminator_witness :
    utf8Valid [101, 110, 100] = true ∧
    capture_stream_lines (mkStream [([111, 107], false)] ++ [101, 110, 100]) =
      ([[111, 107], [101, 110, 100]], 6) := by
  refine ⟨by decide, ?_⟩
  rw [capture_stream_lines_no_trailing_terminator [([111, 107], false)]
    [101, 110, 100] (by decide) (by decide) (by decide) (by decide)]
  rfl

/-- Models the ResourceUsage struct (source lines 44-51). -/
structure ResourceUsage where
  user_time_ms : Int
  system_time_ms : Int
  max_rss_kb : Int
  page_faults : Int
  context_switches : Int
deriving DecidableEq

/-- Models get_resource_usage (source lines 87-90): simplified to None. -/
def get_resource_usage : Option ResourceUsage := none

/-- Models the TelemetryEvent struct (source lines 11-30).  The f64
timestamp is modelled as a rational, the u128 duration as a Nat, i32
fields as Int, and the HashMap environment snapshot as an association
list (its iteration order is irrelevant to the claims). -/
structure TelemetryEvent where
  event_id : String
  event_type : String
  timestamp : Rat
  pid : Int
  ppid : Int
  session_id : String
  command : List String
  cwd : String
  env : List (String × String)
  resource_usage : Option ResourceUsage
  duration_ms : Option Nat
  exit_code : Option Int
  stdout_lines : Option (List String)
  stderr_lines : Option (List String)
  stdin_provided : Option String
  stdout_size_bytes : Option Nat
  stderr_size_bytes : Option Nat
deriving DecidableEq

/-- Models the ProcessStats struct (source lines 32-42). -/
structure ProcessStats where
  start_time : Rat
  end_time : Rat
  duration_ms : Nat
  exit_code : Int
  signal : Option Int
  stdout_lines : Nat
  stderr_lines : Nat
  total_output_bytes : Nat
deriving DecidableEq

/-- Outcome of the three fallible steps of one telemetry append: opening
the log file in create-or-append mode, serializing the event to JSON, and
the writeln call whose result the source discards. -/
structure WriteOutcome where
  openOk : Bool
  serializeOk : Bool
  writeOk : Bool
deriving DecidableEq

/-- Models log_telemetry_event (source lines 79-85): the event is
appended only when open, serialization and write all succeed; any failure
silently leaves the log unchanged, and the function is total, so no error
can propagate to the caller. -/
def log_telemetry_event (w : WriteOutcome) (e : TelemetryEvent)
    (log : List TelemetryEvent) : List TelemetryEvent :=
  if w.openOk then
    if w.serializeOk then
      if w.writeOk then log ++ [e] else log
    else log
  else log

/-- Models std::process::Stdio configurations for a child stream. -/
inductive StdioCfg where
  | inherit
  | piped
  | null
deriving DecidableEq

/-- Models the Command built at source lines 139-143: program args[1],
arguments args[2..], and all three standard streams piped. -/
structure CmdConfig where
  program : String
  cmdArgs : List String
  stdin : StdioCfg
  stdout : StdioCfg
  stderr : StdioCfg
deriving DecidableEq

def buildCommand (args : List String) : CmdConfig :=
  { program := args.getD 1 ""
    cmdArgs := args.drop 2
    stdout := StdioCfg.piped
    stderr := StdioCfg.piped
    stdin := StdioCfg.piped }

/-- Result of a successfully spawned and awaited child: the exit code as
reported by output.code (None models abnormal termination without a
code), and the two drained streams as returned by the capture threads. -/
structure ChildResult where
  code : Option Int
  stdoutLines : List String
  stdoutBytes : Nat
  stderrLines : List String
  stderrBytes : Nat
deriving DecidableEq

/-- One line written to the stderr stream of the wrapper itself; each is
emitted by one eprintln call, so a line feed is appended to the payload.
Constructors correspond to the eprintln sites of the source in order:
lines 95-97 (usage), 134 (pre-spawn diagnostic), 183 (re-emitted captured
stderr line), 249 (summary) and 257 (telemetry path). -/
inductive ErrLine where
  | banner
  | usageLine (prog : String)
  | capturesLine
  | executing (sid : String) (cmd : String)
  | captured (line : String)
  | summary (sid : String) (dur : Nat) (code : Int)
      (outLines outBytes errLines errBytes : Nat)
  | telemetryPath (path : String)
deriving DecidableEq

/-- The payload of a re-emitted captured stderr line, None for the
diagnostic lines of the wrapper itself. -/
def capturedOf : ErrLine → Option String
  | ErrLine.captured l => some l
  | _ => none

/-- Inputs of one run: the argument vector, the configuration resolved
from the environment (session id and log path), ambient process facts,
the timestamps and duration observed, the fresh uuids drawn, the spawn
outcome (None models a spawn error such as a missing executable), and
the outcome of each telemetry write attempt.  The field realPpid is the
parent process id the operating system could provide; the source never
reads it (it hardcodes ppid 0 at lines 117, 204 and 227). -/
structure Env where
  args : List String
  session_id : String
  telemetry_file : String
  pid : Int
  realPpid : Int
  cwd : String
  envVars : List (String × String)
  start_ts : Rat
  end_ts : Rat
  duration_ms : Nat
  uuids : Nat → String
  spawn : Option ChildResult
  writes : Nat → WriteOutcome

/-- Observable effects of one run of the wrapper.  exitCode None models
abnormal termination (a panic), telemetryAttempted lists the events for
which log_telemetry_event was called in call order, telemetryLog the
events actually appended, stdoutOut the byte chunks written to the
stdout of the wrapper (one per println call, line feed included), and
childStdinWrites the data the wrapper forwards to the stdin pipe of the
child (the source never writes to it). -/
structure RunOutcome where
  exitCode : Option Int
  spawnAttempted : Bool
  waited : Bool
  drained : Bool
  childCmd : Option CmdConfig
  childStdinWrites : List String
  telemetryAttempted : List TelemetryEvent
  telemetryLog : List TelemetryEvent
  stdoutOut : List String
  stderrOut : List ErrLine

/-- Models the pre_event built at source lines 112-130. -/
def mkStartEvent (E : Env) : TelemetryEvent :=
  { event_id := E.uuids 0
    event_type := "process_start"
    timestamp := E.start_ts
    pid := E.pid
    ppid := 0
    session_id := E.session_id
    command := E.args.drop 1
    cwd := E.cwd
    env := E.envVars
    resource_usage := get_resource_usage
    duration_ms := none
    exit_code := none
    stdout_lines := none
    stderr_lines := none
    stdin_provided := none
    stdout_size_bytes := none
    stderr_size_bytes := none }

/-- Models the process_stats value built at source lines 187-196. -/
def mkProcessStats (E : Env) (child : ChildResult) : ProcessStats :=
  { start_time := E.start_ts
    end_time := E.end_ts
    duration_ms := E.duration_ms
    exit_code := child.code.getD (-1)
    signal := none
    stdout_lines := child.stdoutLines.length
    stderr_lines := child.stderrLines.length
    total_output_bytes := child.stdoutBytes + child.stderrBytes }

/-- Models the post_event built at source lines 199-217. -/
def mkEndEvent (E : Env) (child : ChildResult) : TelemetryEvent :=
  { event_id := E.uuids 1
    event_type := "process_end"
    timestamp := (mkProcessStats E child).end_time
    pid := E.pid
    ppid := 0
    session_id := E.session_id
    command := E.args.drop 1
    cwd := E.cwd
    env := []
    resource_usage := get_resource_usage
    duration_ms := some (mkProcessStats E child).duration_ms
    exit_code := some (mkProcessStats E child).exit_code
    stdout_lines := some child.stdoutLines
    stderr_lines := some child.stderrLines
    stdin_provided := none
    stdout_size_bytes := some child.stdoutBytes
    stderr_size_bytes := some child.stderrBytes }

/-- Models the stats_event built at source lines 222-245. -/
def mkStatsEvent (E : Env) (child : ChildResult) : TelemetryEvent :=
  { event_id := E.uuids 2
    event_type := "process_stats"
    timestamp := (mkProcessStats E child).end_time
    pid := E.pid
    ppid := 0
    session_id := E.session_id
    command := E.args.drop 1
    cwd := E.cwd
    env := [("duration_ms", toString (mkProcessStats E child).duration_ms),
      ("stdout_lines", toString (mkProcessStats E child).stdout_lines),
      ("stderr_lines", toString (mkProcessStats E child).stderr_lines),
      ("total_bytes", toString (mkProcessStats E child).total_output_bytes)]
    resource_usage := none
    duration_ms := some (mkProcessStats E child).duration_ms
    exit_code := some (mkProcessStats E child).exit_code
    stdout_lines := none
    stderr_lines := none
    stdin_provided := none
    stdout_size_bytes := some child.stdoutBytes
    stderr_size_bytes := some child.stderrBytes }

/-- Models the path taken with an empty argument vector: the banner
eprintln at line 95 runs, then indexing args[0] at line 96 panics, so
the process aborts abnormally before printing the usage line, before any
telemetry and before any spawn. -/
def emptyArgvOutcome : RunOutcome :=
  { exitCode := none
    spawnAttempted := false
    waited := false
    drained := false
    childCmd := none
    childStdinWrites := []
    telemetryAttempted := []
    telemetryLog := []
    stdoutOut := []
    stderrOut := [ErrLine.banner] }

/-- Models the usage path (source lines 94-99): three eprintln lines and
exit code 1, with no spawn and no telemetry. -/
def usageOutcome (prog : String) : RunOutcome :=
  { exitCode := some 1
    spawnAttempted := false
    waited := false
    drained := false
    childCmd := none
    childStdinWrites := []
    telemetryAttempted := []
    telemetryLog := []
    stdoutOut := []
    stderrOut := [ErrLine.banner, ErrLine.usageLine prog, ErrLine.capturesLine] }

/-- Models a spawn failure (source line 145): the start event was already
attempted at line 132 and the diagnostic of line 134 printed, then the
expect call panics, so the run aborts with no wait, no drain, no further
telemetry and no re-emission. -/
def spawnFailOutcome (E : Env) : RunOutcome :=
  { exitCode := none
    spawnAttempted := true
    waited := false
    drained := false
    childCmd := some (buildCommand E.args)
    childStdinWrites := []
    telemetryAttempted := [mkStartEvent E]
    telemetryLog := log_telemetry_event (E.writes 0) (mkStartEvent E) []
    stdoutOut := []
    stderrOut :=
      [ErrLine.executing E.session_id (String.intercalate " " (E.args.drop 1))] }

/-- Models a completed run (source lines 145-259): spawn, concurrent
drains, wait, join, re-emission of both captured streams, the end and
stats events, the summary lines, and exit with the exit code of the
child (or the sentinel -1 when it is unavailable). -/
def doneOutcome (E : Env) (child : ChildResult) : RunOutcome :=
  { exitCode := some (mkProcessStats E child).exit_code
    spawnAttempted := true
    waited := true
    drained := true
    childCmd := some (buildCommand E.args)
    childStdinWrites := []
    telemetryAttempted := [mkStartEvent E, mkEndEvent E child, mkStatsEvent E child]
    telemetryLog :=
      log_telemetry_event (E.writes 2) (mkStatsEvent E child)
        (log_telemetry_event (E.writes 1) (mkEndEvent E child)
          (log_telemetry_event (E.writes 0) (mkStartEvent E) []))
    stdoutOut := child.stdoutLines.map (fun l => l ++ "\n")
    stderrOut :=
      ErrLine.executing E.session_id (String.intercalate " " (E.args.drop 1)) ::
        child.stderrLines.map ErrLine.captured ++
        [ErrLine.summary E.session_id (mkProcessStats E child).duration_ms
          (mkProcessStats E child).exit_code (mkProcessStats E child).stdout_lines
          child.stdoutBytes (mkProcessStats E child).stderr_lines child.stderrBytes,
        ErrLine.telemetryPath E.telemetry_file] }

/-- Models main (source lines 92-260) as a function from the run inputs
to the observable effects, following the three control paths of the
source: argument check, spawn failure, completed run. -/
def main (E : Env) : RunOutcome :=
  if E.args.length < 2 then
    match E.args.head? with
    | none => emptyArgvOutcome
    | some prog => usageOutcome prog
  else
    match E.spawn with
    | none => spawnFailOutcome E
    | some child => doneOutcome E child

/-- A telemetry write attempt in which every step succeeds. -/
def allOk : WriteOutcome := { openOk := true, serializeOk := true, writeOk := true }

/-- A sample child outcome used by the concrete witnesses. -/
def sampleChild : ChildResult :=
  { code := some 7
    stdoutLines := ["hello"]
    stdoutBytes := 6
    stderrLines := ["warn"]
    stderrBytes := 5 }

/-- A sample run environment used by the concrete witnesses. -/
def sampleEnv : Env :=
  { args := ["wrapper", "echo", "hello"]
    session_id := "s1"
    telemetry_file := "/tmp/t.jsonl"
    pid := 42
    realPpid := 17
    cwd := "/work"
    envVars := [("PATH", "/bin")]
    start_ts := 0
    end_ts := 1
    duration_ms := 1000
    uuids := fun n => toString n
    spawn := some sampleChild
    writes := fun _ => allOk }

/-- A sample environment in which the spawn fails. -/
def spawnFailEnv : Env :=
  { sampleEnv with args := ["wrapper", "missing"], spawn := none }

/-- A sample environment with an empty argument vector. -/
def emptyArgvEnv : Env := { sampleEnv with args := [] }

/-- A sample environment with only the program name. -/
def usageEnv : Env := { sampleEnv with args := ["wrapper"] }

theorem main_emptyArgv (E : Env) (hargs : E.args = []) :
    main E = emptyArgvOutcome := by
  simp [main, hargs]

theorem main_usage (E : Env) (prog : String) (t : List String)
    (hargs : E.args = prog :: t) (hlt : E.args.length < 2) :
    main E = usageOutcome prog := by
  simp only [main]
  rw [if_pos hlt, hargs]
  rfl

theorem main_spawnFail (E : Env) (h2 : 2 ≤ E.args.length)
    (hs : E.spawn = none) : main E = spawnFailOutcome E := by
  simp only [main]
  rw [if_neg (by omega), hs]

theorem main_done (E : Env) (child : ChildResult) (h2 : 2 ≤ E.args.length)
    (hs : E.spawn = some child) : main E = doneOutcome E child := by
  simp only [main]
  rw [if_neg (by omega), hs]

/-- The components of a run outcome that the telemetry subsystem must
never influence: the exit code and both standard stream outputs. -/
def observables (r : RunOutcome) : Option Int × List String × List ErrLine :=
  (r.exitCode, r.stdoutOut, r.stderrOut)

theorem main_observables_writes (E : Env) (w : Nat → WriteOutcome) :
    observables (main { E with writes := w }) = observables (main E) := by
  by_cases hlt : E.args.length < 2
  · simp only [main]
    rw [if_pos hlt, if_pos hlt]
  · simp only [main]
    rw [if_neg hlt, if_neg hlt]
    cases E.spawn with
    | none => rfl
    | some child => rfl

/-- Claim C1: for every completed run the wrapper exits with exactly the
exit code of the child, and with the sentinel -1 when the child reports
no exit code. -/
theorem exit_code_transparent (E : Env) (child : ChildResult)
    (h2 : 2 ≤ E.args.length) (hs : E.spawn = some child) :
    (main E).exitCode = some (child.code.getD (-1)) ∧
    (∀ c : Int, child.code = some c → (main E).exitCode = some c) ∧
    (child.code = none → (main E).exitCode = some (-1)) := by
  rw [main_done E child h2 hs]
  refine ⟨rfl, ?_, ?_⟩
  · intro c hc
    simp [doneOutcome, mkProcessStats, hc]
  · intro hc
    simp [doneOutcome, mkProcessStats, hc]

/-- Witness for C1: a child exiting with code 7 makes the wrapper exit
with code 7. -/
theorem exit_code_transparent_witness :
    2 ≤ sampleEnv.args.length ∧ sampleEnv.spawn = some sampleChild ∧
    (main sampleEnv).exitCode = some 7 := by
  refine ⟨by decide, rfl, ?_⟩
  exact (exit_code_transparent sampleEnv sampleChild (by decide) rfl).2.1 7 rfl

/-- Claim C3: a completed run whose three telemetry writes all succeed
appends exactly three events, in the order process_start, process_end,
process_stats, all carrying the same session identifier and the same
command argument list. -/
theorem telemetry_three_events (E : Env) (child : ChildResult)
    (h2 : 2 ≤ E.args.length) (hs : E.spawn = some child)
    (hw0 : E.writes 0 = allOk) (hw1 : E.writes 1 = allOk)
    (hw2 : E.writes 2 = allOk) :
    (main E).telemetryLog =
      [mkStartEvent E, mkEndEvent E child, mkStatsEvent E child] ∧
    (main E).telemetryLog.map TelemetryEvent.event_type =
      ["process_start", "process_end", "process_stats"] ∧
    ∀ e ∈ (main E).telemetryLog,
      e.session_id = E.session_id ∧ e.command = E.args.drop 1 := by
  rw [main_done E child h2 hs]
  have hlog : (doneOutcome E child).telemetryLog =
      [mkStartEvent E, mkEndEvent E child, mkStatsEvent E child] := by
    simp [doneOutcome, log_telemetry_event, hw0, hw1, hw2, allOk]
  refine ⟨hlog, ?_, ?_⟩
  · rw [hlog]
    rfl
  · rw [hlog]
    intro e he
    simp only [List.mem_cons, List.not_mem_nil, or_false] at he
    rcases he with rfl | rfl | rfl
    · exact ⟨rfl, rfl⟩
    · exact ⟨rfl, rfl⟩
    · exact ⟨rfl, rfl⟩

/-- Witness for C3 on the sample run. -/
theorem telemetry_three_events_witness :
    2 ≤ sampleEnv.args.length ∧
    (main sampleEnv).telemetryLog.map TelemetryEvent.event_type =
      ["process_start", "process_end", "process_stats"] := by
  refine ⟨by decide, ?_⟩
  exact (telemetry_three_events sampleEnv sampleChild (by decide) rfl rfl rfl
    rfl).2.1

/-- Counterexample to claim C4 as stated: at a concrete invocation the
child stdin is configured as a wrapper controlled pipe (source line 143),
not inherited from the wrapper, so the stdin of the wrapper is not
connected straight through to the child; straight through would be the
inherit configuration. -/
theorem stdin_not_inherited :
    (main sampleEnv).childCmd = some (buildCommand sampleEnv.args) ∧
    (buildCommand sampleEnv.args).stdin = StdioCfg.piped ∧
    StdioCfg.piped ≠ StdioCfg.inherit := by
  refine ⟨rfl, rfl, by decide⟩

/-- Claim C4 amended: the wrapper configures the child stdin as a piped
stream it controls and never writes anything to that pipe; stdin is not
passed straight through. -/
theorem stdin_piped_unwritten (E : Env) (h2 : 2 ≤ E.args.length) :
    (buildCommand E.args).stdin = StdioCfg.piped ∧
    (main E).childCmd = some (buildCommand E.args) ∧
    (main E).childStdinWrites = [] := by
  refine ⟨rfl, ?_, ?_⟩
  · cases hs : E.spawn with
    | none => rw [main_spawnFail E h2 hs]; rfl
    | some child => rw [main_done E child h2 hs]; rfl
  · cases hs : E.spawn with
    | none => rw [main_spawnFail E h2 hs]; rfl
    | some child => rw [main_done E child h2 hs]; rfl

/-- Witness for the amended C4 on the sample run. -/
theorem stdin_piped_unwritten_witness :
    2 ≤ sampleEnv.args.length ∧
    (buildCommand sampleEnv.args).stdin = StdioCfg.piped ∧
    (main sampleEnv).childStdinWrites = [] := by
  refine ⟨by decide, ?_, ?_⟩
  · exact (stdin_piped_unwritten sampleEnv (by decide)).1
  · exact (stdin_piped_unwritten sampleEnv (by decide)).2.2

/-- Counterexample to claim C5 as stated: on a concrete spawn failure a
process_start event has already been attempted, so the part of the claim
stating that no process_start telemetry event is attempted for that run
is false. -/
theorem spawn_failure_start_attempted :
    spawnFailEnv.spawn = none ∧
    (main spawnFailEnv).telemetryAttempted.map TelemetryEvent.event_type =
      ["process_start"] :=
  ⟨rfl, rfl⟩

/-- Claim C5 amended: if spawning the child fails the run aborts as a
hard failure (abnormal termination, no exit code) without proceeding to
wait or drain and with no end or stats event, but the process_start event
has already been attempted before the spawn. -/
theorem spawn_failure_hard_abort (E : Env) (h2 : 2 ≤ E.args.length)
    (hs : E.spawn = none) :
    (main E).exitCode = none ∧ (main E).waited = false ∧
    (main E).drained = false ∧ (main E).stdoutOut = [] ∧
    (main E).telemetryAttempted = [mkStartEvent E] := by
  rw [main_spawnFail E h2 hs]
  exact ⟨rfl, rfl, rfl, rfl, rfl⟩

/-- Witness for the amended C5 on the sample spawn failure. -/
theorem spawn_failure_hard_abort_witness :
    2 ≤ spawnFailEnv.args.length ∧ spawnFailEnv.spawn = none ∧
    (main spawnFailEnv).waited = false ∧
    (main spawnFailEnv).telemetryAttempted = [mkStartEvent spawnFailEnv] := by
  refine ⟨by decide, rfl, ?_, ?_⟩
  · exact (spawn_failure_hard_abort spawnFailEnv (by decide) rfl).2.1
  · exact (spawn_failure_hard_abort spawnFailEnv (by decide) rfl).2.2.2.2

/-- Claim C6: after a completed run every captured stdout line is written
to the stdout of the wrapper with a line feed re-added, in capture order,
and the lines re-emitted to the stderr of the wrapper are exactly the
captured stderr lines in capture order. -/
theorem reemission_transparent (E : Env) (child : ChildResult)
    (h2 : 2 ≤ E.args.length) (hs : E.spawn = some child) :
    (main E).stdoutOut = child.stdoutLines.map (fun l => l ++ "\n") ∧
    (main E).stderrOut.filterMap capturedOf = child.stderrLines := by
  rw [main_done E child h2 hs]
  refine ⟨rfl, ?_⟩
  simp only [doneOutcome, List.filterMap_cons, List.filterMap_append,
    List.filterMap_map, capturedOf]
  simp [Function.comp_def, capturedOf, List.filterMap_some]

/-- Witness for C6 on the sample run. -/
theorem reemission_transparent_witness :
    sampleEnv.spawn = some sampleChild ∧
    (main sampleEnv).stdoutOut = ["hello\n"] ∧
    (main sampleEnv).stderrOut.filterMap capturedOf = ["warn"] := by
  have h := reemission_transparent sampleEnv sampleChild (by decide) rfl
  exact ⟨rfl, h.1.trans (by decide), h.2⟩

/-- Claim C7: a failure in any step of a telemetry append (file open,
serialization, write) drops the event without changing the log and
without propagating an error, and the exit code and both standard stream
outputs of the run do not depend on the telemetry write outcomes at all.
The return type of log_telemetry_event is a plain log, so no error can
reach the caller. -/
theorem telemetry_failure_nonfatal (w : WriteOutcome) (e : TelemetryEvent)
    (log : List TelemetryEvent) (E : Env) (w1 w2 : Nat → WriteOutcome)
    (h : w.openOk = false ∨ w.serializeOk = false ∨ w.writeOk = false) :
    log_telemetry_event w e log = log ∧
    observables (main { E with writes := w1 }) =
      observables (main { E with writes := w2 }) := by
  constructor
  · obtain ⟨o, s, wr⟩ := w
    cases o <;> cases s <;> cases wr <;> simp_all [log_telemetry_event]
  · rw [main_observables_writes E w1, main_observables_writes E w2]

/-- Witness for C7: a failed file open drops the start event and leaves
the log empty, and two runs differing only in telemetry write outcomes
agree on exit code and standard stream outputs. -/
theorem telemetry_failure_nonfatal_witness :
    ({ openOk := false, serializeOk := true, writeOk := true }
        : WriteOutcome).openOk = false ∧
    log_telemetry_event { openOk := false, serializeOk := true, writeOk := true }
      (mkStartEvent sampleEnv) [] = [] ∧
    observables (main { sampleEnv with
        writes := fun _ => { openOk := false, serializeOk := true, writeOk := true } }) =
      observables (main { sampleEnv with writes := fun _ => allOk }) := by
  have h := telemetry_failure_nonfatal
    { openOk := false, serializeOk := true, writeOk := true }
    (mkStartEvent sampleEnv) [] sampleEnv
    (fun _ => { openOk := false, serializeOk := true, writeOk := true })
    (fun _ => allOk) (Or.inl rfl)
  exact ⟨rfl, h.1, h.2⟩

/-- Counterexample to claim C9 as stated: with a completely empty
argument vector (the operating system permits an empty argv) the length
check passes but indexing args[0] at source line 96 panics, so the
wrapper aborts abnormally instead of exiting with code 1 after the full
usage message. -/
theorem usage_empty_argv :
    emptyArgvEnv.args.length < 2 ∧
    (main emptyArgvEnv).exitCode ≠ some 1 ∧
    (main emptyArgvEnv).stderrOut = [ErrLine.banner] := by
  refine ⟨by decide, ?_, ?_⟩
  · rw [main_emptyArgv emptyArgvEnv rfl]
    decide
  · rw [main_emptyArgv emptyArgvEnv rfl]
    rfl

/-- Claim C9 amended: whenever the wrapper is invoked with a nonempty
argument vector of fewer than two arguments (a program name but no
command), it prints the usage message to its error stream, exits with
code 1, attempts no spawn, and writes no telemetry event; with an empty
argument vector it instead aborts abnormally while printing the banner. -/
theorem usage_error_behavior (E : Env) (prog : String) (t : List String)
    (hargs : E.args = prog :: t) (hlt : E.args.length < 2) :
    (main E).exitCode = some 1 ∧
    (main E).stderrOut =
      [ErrLine.banner, ErrLine.usageLine prog, ErrLine.capturesLine] ∧
    (main E).spawnAttempted = false ∧
    (main E).childCmd = none ∧
    (main E).telemetryAttempted = [] ∧
    (main E).telemetryLog = [] := by
  rw [main_usage E prog t hargs hlt]
  exact ⟨rfl, rfl, rfl, rfl, rfl, rfl⟩

/-- Witness for the amended C9 on an invocation with only the program
name. -/
theorem usage_error_behavior_witness :
    usageEnv.args = "wrapper" :: [] ∧ usageEnv.args.length < 2 ∧
    (main usageEnv).exitCode = some 1 ∧
    (main usageEnv).telemetryLog = [] := by
  refine ⟨rfl, by decide, ?_, ?_⟩
  · exact (usage_error_behavior usageEnv "wrapper" [] rfl (by decide)).1
  · exact (usage_error_behavior usageEnv "wrapper" [] rfl (by decide)).2.2.2.2.2

/-- Claim C10: every telemetry event the wrapper attempts to emit has its
parent process id field hardcoded to the sentinel 0, whatever the real
parent process id available in the run environment is. -/
theorem ppid_hardcoded_zero (E : Env) :
    ∀ e ∈ (main E).telemetryAttempted, e.ppid = 0 := by
  intro e he
  by_cases hlt : E.args.length < 2
  · cases hargs : E.args with
    | nil =>
      rw [main_emptyArgv E hargs] at he
      simp [emptyArgvOutcome] at he
    | cons p t =>
      rw [main_usage E p t hargs hlt] at he
      simp [usageOutcome] at he
  · have h2 : 2 ≤ E.args.length := by omega
    cases hs : E.spawn with
    | none =>
      rw [main_spawnFail E h2 hs] at he
      simp only [spawnFailOutcome, List.mem_singleton] at he
      subst he
      rfl
    | some child =>
      rw [main_done E child h2 hs] at he
      simp only [doneOutcome, List.mem_cons, List.not_mem_nil, or_false] at he
      rcases he with rfl | rfl | rfl <;> rfl

/-- Witness for C10: the start event of the sample run, whose environment
carries the real parent process id 17, still records ppid 0. -/
theorem ppid_hardcoded_zero_witness :
    mkStartEvent sampleEnv ∈ (main sampleEnv).telemetryAttempted ∧
    (mkStartEvent sampleEnv).ppid = 0 := by
  have hmem : mkStartEvent sampleEnv ∈ (main sampleEnv).telemetryAttempted := by
    rw [main_done sampleEnv sampleChild (by decide) rfl]
    exact List.mem_cons_self _ _
  exact ⟨hmem, ppid_hardcoded_zero sampleEnv (mkStartEvent sampleEnv) hmem⟩

end Telemetry
